import Mathlib

/-
Shallow embedding of src/src/pc/protocols/wrap_libusb.hpp (dai::libusb).

Raw native handles (libusb_device_handle*, libusb_device*, libusb_context*)
are modelled as `Option Nat` (`none` = nullptr).  Native side effects are
modelled as explicit event traces (`NativeCall`, `RefEvent`); the return
codes of native calls are supplied by the caller (an oracle `rcs`), since
the native library is outside the repository.  Exceptions are modelled with
`Except` / an explicit `raised : Option usb_error` field.
-/

namespace dai

namespace libusb

/-- Severity levels of the logging sink (`mvLog_t` in the source). -/
inductive MvLogLevel
  | debug
  | info
  | warn
  | error
  | fatal
deriving DecidableEq, Repr

/-- One message accepted by the logging sink `logprintf(unit, level, func, line, fmt, ...)`. -/
structure LogEvent where
  level : MvLogLevel
  func_within : String
  line_number : Nat
  message : String
deriving DecidableEq, Repr

/-- Model of the external `libusb_strerror`: the code-to-string translator of the
native library, returning the documented libusb message strings with
"Other error" for any unknown code. -/
def libusb_strerror (code : Int) : String :=
  if code = 0 then "Success"
  else if code = -1 then "Input/Output Error"
  else if code = -2 then "Invalid parameter"
  else if code = -3 then "Access denied (insufficient permissions)"
  else if code = -4 then "No such device (it may have been disconnected)"
  else if code = -5 then "Entity not found"
  else if code = -6 then "Resource busy"
  else if code = -7 then "Operation timed out"
  else if code = -8 then "Overflow"
  else if code = -9 then "Pipe error"
  else if code = -10 then "System call interrupted (perhaps due to signal)"
  else if code = -11 then "Insufficient memory"
  else if code = -12 then "Operation not supported or unimplemented on this platform"
  else "Other error"

/-- Exception class `usb_error : std::system_error`: carries the native error
code and a human-readable description. -/
structure usb_error where
  code : Int
  what : String
deriving DecidableEq, Repr

/-- Constructor `usb_error(const int libusbErrorCode)`: description derived
through `libusb_strerror`. -/
def usb_error.ofCode (c : Int) : usb_error :=
  ⟨c, libusb_strerror c⟩

/-- Embedding of `call_log_throw<Loglevel, Throw>(func_within, line_number, func, args...)`.
The native call has already produced `rcNum`; this models the check/log/throw
part: if `rcNum < 0` a formatted message is logged at `Loglevel` and, when
`Throw` is true, `usb_error(rcNum)` is raised; otherwise `rcNum` is returned
unchanged.  Result: the emitted log events and the outcome. -/
def call_log_throw (Loglevel : MvLogLevel) (Throw : Bool)
    (func_within : String) (line_number : Nat) (rcNum : Int) :
    List LogEvent × Except usb_error Int :=
  if rcNum < 0 then
    let ev : LogEvent :=
      ⟨Loglevel, func_within, line_number,
        "dai::libusb failed " ++ func_within ++ "(): " ++ libusb_strerror rcNum⟩
    if Throw then ([ev], Except.error (usb_error.ofCode rcNum))
    else ([ev], Except.ok rcNum)
  else ([], Except.ok rcNum)

/-- Native calls issued by `device_handle` (the channel argument is the raw
`libusb_device_handle*`, `none` = nullptr). -/
inductive NativeCall
  | release_interface (h : Option Nat) (n : Int)
  | claim_interface (h : Option Nat) (n : Int)
  | close (h : Nat)
deriving DecidableEq, Repr

/-- Observable outcome of a `device_handle` operation: native calls issued in
order, log events emitted, and the exception that escaped (if any). -/
structure NativeRun where
  calls : List NativeCall
  logs : List LogEvent
  raised : Option usb_error
deriving DecidableEq, Repr

/-- State of `class device_handle : unique_resource_ptr<libusb_device_handle, libusb_close>`:
the owned raw channel (base `unique_ptr`) plus `std::vector<int> claimedInterfaces`. -/
structure device_handle where
  handle : Option Nat
  claimedInterfaces : List Int
deriving DecidableEq, Repr

/-- The loop in `device_handle::reset`: for each claimed interface number, invoke
`call_log_throw<MVLOG_ERROR, false>(__func__, __LINE__, libusb_release_interface, get(), n)`
with the native return code supplied by `rcs n`. -/
def releaseLoop (h : Option Nat) (rcs : Int → Int) : List Int → NativeRun
  | [] => ⟨[], [], none⟩
  | n :: rest =>
    match call_log_throw MvLogLevel.error false "reset" 298 (rcs n) with
    | (logs, Except.error e) => ⟨[NativeCall.release_interface h n], logs, some e⟩
    | (logs, Except.ok _) =>
      let r := releaseLoop h rcs rest
      ⟨NativeCall.release_interface h n :: r.calls, logs ++ r.logs, r.raised⟩

/-- `device_handle::reset(ptr)`: releases every claimed interface (log only,
no throw), then `_base::reset(ptr)`, which closes the old channel via
`libusb_close` when non-null and stores `ptr`.  The source does NOT clear
`claimedInterfaces`; this embedding reproduces that faithfully. -/
def device_handle.reset (dh : device_handle) (ptr : Option Nat) (rcs : Int → Int) :
    device_handle × NativeRun :=
  let run := releaseLoop dh.handle rcs dh.claimedInterfaces
  let closeCalls : List NativeCall :=
    match dh.handle with
    | some h => [NativeCall.close h]
    | none => []
  (⟨ptr, dh.claimedInterfaces⟩, ⟨run.calls ++ closeCalls, run.logs, run.raised⟩)

/-- `~device_handle()`: calls `reset()` (null pointer); afterwards the base
destructor and the vector destructor see an empty base and destroy the vector. -/
def device_handle.destruct (dh : device_handle) (rcs : Int → Int) : NativeRun :=
  (dh.reset none rcs).2

/-- `device_handle::release()`: clears `claimedInterfaces`, then `_base::release()`
returns the raw channel and leaves the base empty.  No native call is issued. -/
def device_handle.release (dh : device_handle) : Option Nat × device_handle :=
  (dh.handle, ⟨none, []⟩)

/-- `device_handle::claim_interface(n)`: no-op when `n` is found in
`claimedInterfaces`; otherwise `CALL_LOG_ERROR_THROW(libusb_claim_interface, get(), n)`
(native return code `rc`), and on success `claimedInterfaces.emplace_back(n)`. -/
def device_handle.claim_interface (dh : device_handle) (n : Int) (rc : Int) :
    device_handle × NativeRun :=
  if n ∈ dh.claimedInterfaces then (dh, ⟨[], [], none⟩)
  else
    match call_log_throw MvLogLevel.error true "claim_interface" 314 rc with
    | (logs, Except.error e) =>
      (dh, ⟨[NativeCall.claim_interface dh.handle n], logs, some e⟩)
    | (logs, Except.ok _) =>
      (⟨dh.handle, dh.claimedInterfaces ++ [n]⟩,
       ⟨[NativeCall.claim_interface dh.handle n], logs, none⟩)

/-- `device_handle::release_interface(n)`: no-op when `n` is not found in
`claimedInterfaces`; otherwise `CALL_LOG_ERROR_THROW(libusb_release_interface, get(), n)`
(native return code `rc`), and on success erases the found entry. -/
def device_handle.release_interface (dh : device_handle) (n : Int) (rc : Int) :
    device_handle × NativeRun :=
  if n ∈ dh.claimedInterfaces then
    match call_log_throw MvLogLevel.error true "release_interface" 323 rc with
    | (logs, Except.error e) =>
      (dh, ⟨[NativeCall.release_interface dh.handle n], logs, some e⟩)
    | (logs, Except.ok _) =>
      (⟨dh.handle, dh.claimedInterfaces.erase n⟩,
       ⟨[NativeCall.release_interface dh.handle n], logs, none⟩)
  else (dh, ⟨[], [], none⟩)

/-- `device_handle::operator=(device_handle&&)` on two distinct objects:
`*_base(this) = exchange(other_base, {})` empties the source base, move-assigns
it into the target base (closing the target's old channel when non-null), then
`claimedInterfaces = exchange(other.claimedInterfaces, {})`.  Result:
(new target, new source, native calls issued). -/
def device_handle.moveAssign (target source : device_handle) :
    device_handle × device_handle × List NativeCall :=
  (⟨source.handle, source.claimedInterfaces⟩,
   ⟨none, []⟩,
   match target.handle with
   | some h => [NativeCall.close h]
   | none => [])

/-- Effect of one successful native call on the native layer's set of claimed
(channel, interface) pairs: a claim adds the pair, a release removes it, a
close drops every pair of that channel. -/
def applyNativeCall (s : List (Nat × Int)) : NativeCall → List (Nat × Int)
  | NativeCall.claim_interface (some h) n => (h, n) :: s
  | NativeCall.claim_interface none _ => s
  | NativeCall.release_interface (some h) n => s.erase (h, n)
  | NativeCall.release_interface none _ => s
  | NativeCall.close h => s.filter (fun p => decide (p.1 ≠ h))

/-- Folds `applyNativeCall` over a trace of successful native calls. -/
def applyNativeCalls (s : List (Nat × Int)) (cs : List NativeCall) : List (Nat × Int) :=
  cs.foldl applyNativeCall s

/-- The spec's Device Handle invariant: every recorded claimed interface number
is actually claimed at the native layer on the currently owned channel. -/
def claimedSubsetNative (dh : device_handle) (s : List (Nat × Int)) : Bool :=
  dh.claimedInterfaces.all fun n =>
    match dh.handle with
    | some h => s.contains (h, n)
    | none => false

/-- Reference-count events issued to the native library for raw `libusb_device*`
identities (modelled as `Nat`). -/
inductive RefEvent
  | ref (d : Nat)
  | unref (d : Nat)
deriving DecidableEq, Repr

/-- Model of the external `libusb_ref_device(p)`: increments the identity's
reference count and returns `p`; no identity, no event, when `p` is null. -/
def libusb_ref_device (p : Option Nat) : Option Nat × List RefEvent :=
  (p, match p with
      | some d => [RefEvent.ref d]
      | none => [])

/-- The base `unique_resource_deleter` with `libusb_unref_device`: decrements
the reference count when the stored pointer is non-null, otherwise no-op. -/
def libusb_unref_device (p : Option Nat) : List RefEvent :=
  match p with
  | some d => [RefEvent.unref d]
  | none => []

/-- State of `class usb_device : unique_resource_ptr<libusb_device, libusb_unref_device>`:
the owned raw device identity. -/
structure usb_device where
  dev : Option Nat
deriving DecidableEq, Repr

/-- `explicit usb_device(pointer p) : _base{libusb_ref_device(p)}`. -/
def usb_device.construct (p : Option Nat) : usb_device × List RefEvent :=
  let r := libusb_ref_device p
  (⟨r.1⟩, r.2)

/-- `~usb_device()`: the base `unique_ptr` destructor runs the deleter
(`libusb_unref_device`) on the stored pointer when non-null. -/
def usb_device.destruct (u : usb_device) : List RefEvent :=
  libusb_unref_device u.dev

/-- `usb_device::reset(p)`: `_base::reset(libusb_ref_device(p))` — the argument
is evaluated first (incrementing the new identity), then the base reset stores
it and runs the deleter on the old pointer (decrementing the old identity). -/
def usb_device.reset (u : usb_device) (p : Option Nat) : usb_device × List RefEvent :=
  let r := libusb_ref_device p
  (⟨r.1⟩, r.2 ++ libusb_unref_device u.dev)

/-- Signed contribution of one reference event to identity `d`'s count. -/
def refDelta1 (d : Nat) : RefEvent → Int
  | RefEvent.ref d' => if d' = d then 1 else 0
  | RefEvent.unref d' => if d' = d then -1 else 0

/-- Reference count of identity `d` after a trace, starting from `c0`. -/
def refCountAfter (d : Nat) (c0 : Int) (evs : List RefEvent) : Int :=
  evs.foldl (fun c e => c + refDelta1 d e) c0

/-- Reference counts of identity `d` after every step of a trace (the count
before the first event included). -/
def refCountTrace (d : Nat) (c0 : Int) (evs : List RefEvent) : List Int :=
  evs.scanl (fun c e => c + refDelta1 d e) c0

/-- State of `class device_list`: the enumerated array of raw `libusb_device*`
entries; `countDevices` is its length. -/
structure device_list where
  devices : List Nat
deriving DecidableEq, Repr

/-- `device_list::size()`: returns `countDevices`. -/
def device_list.size (dl : device_list) : Nat :=
  dl.devices.length

/-- `device_list::empty()`: `countDevices == 0`. -/
def device_list.empty (dl : device_list) : Bool :=
  dl.size == 0

/-- `device_list::at(index)`: throws `std::out_of_range("device_list::at")` when
`index >= size()`, otherwise returns the entry. -/
def device_list.at' (dl : device_list) (index : Nat) : Except String Nat :=
  if index ≥ dl.size then Except.error "device_list::at"
  else Except.ok (dl.devices.getD index 0)

/-- Model of the external `libusb_get_device_list(context, &list)`: produces the
array of currently connected devices and returns their count (never negative
on success; a failure would be a negative code instead). -/
def libusb_get_device_list (connected : List Nat) : List Nat × Int :=
  (connected, Int.ofNat connected.length)

/-- `device_list(libusb_context* context)`: `countDevices = CALL_LOG_ERROR_THROW(libusb_get_device_list, context, &deviceList)`;
construction raises on a negative native result. -/
def device_list.enumerate (connected : List Nat) : Except usb_error device_list :=
  let r := libusb_get_device_list connected
  match call_log_throw MvLogLevel.error true "device_list" 151 r.2 with
  | (_, Except.error e) => Except.error e
  | (_, Except.ok _) => Except.ok ⟨r.1⟩

end libusb

end dai

namespace dai

namespace libusb

/-- With the no-throw policy, `call_log_throw` always returns the native code. -/
theorem call_log_throw_no_throw (lvl : MvLogLevel) (f : String) (ln : Nat) (rc : Int) :
    (call_log_throw lvl false f ln rc).2 = Except.ok rc := by
  unfold call_log_throw
  split <;> simp

/-- A non-negative native result passes through unchanged, with no log and no raise. -/
theorem call_log_throw_nonneg (lvl : MvLogLevel) (t : Bool) (f : String) (ln : Nat)
    (rc : Int) (h : 0 ≤ rc) :
    call_log_throw lvl t f ln rc = ([], Except.ok rc) := by
  unfold call_log_throw
  rw [if_neg (by omega)]

/-- A negative native result under the throwing policy logs one message and raises
`usb_error` carrying exactly that code. -/
theorem call_log_throw_neg_throw (lvl : MvLogLevel) (f : String) (ln : Nat)
    (rc : Int) (h : rc < 0) :
    call_log_throw lvl true f ln rc =
      ([⟨lvl, f, ln, "dai::libusb failed " ++ f ++ "(): " ++ libusb_strerror rc⟩],
       Except.error ⟨rc, libusb_strerror rc⟩) := by
  unfold call_log_throw
  rw [if_pos h]
  rfl

/-- Full value of `call_log_throw` under the no-throw policy: the native code is
always returned, with a log message exactly when it is negative. -/
theorem call_log_throw_false_eq (lvl : MvLogLevel) (f : String) (ln : Nat) (rc : Int) :
    call_log_throw lvl false f ln rc =
      ((if rc < 0 then
          [⟨lvl, f, ln, "dai::libusb failed " ++ f ++ "(): " ++ libusb_strerror rc⟩]
        else []),
       Except.ok rc) := by
  unfold call_log_throw
  split <;> rfl

/-- Outside the known libusb error codes the translator answers "Other error". -/
theorem libusb_strerror_out (rc : Int) (h : rc < -12 ∨ 0 < rc) :
    libusb_strerror rc = "Other error" := by
  unfold libusb_strerror
  repeat rw [if_neg (by omega)]

/-- The code-to-string translator never yields an empty description. -/
theorem libusb_strerror_ne_empty (rc : Int) : libusb_strerror rc ≠ "" := by
  by_cases h : rc < -12 ∨ 0 < rc
  · rw [libusb_strerror_out rc h]
    decide
  · have h2 : -12 ≤ rc ∧ rc ≤ 0 := by omega
    obtain ⟨ha, hb⟩ := h2
    interval_cases rc <;> decide

/-- The release loop of `device_handle::reset` issues one native release per
recorded interface, in order, and never raises (its calls use the no-throw policy). -/
theorem releaseLoop_eq (h : Option Nat) (rcs : Int → Int) (l : List Int) :
    releaseLoop h rcs l =
      ⟨l.map (NativeCall.release_interface h),
       l.flatMap (fun n => (call_log_throw MvLogLevel.error false "reset" 298 (rcs n)).1),
       none⟩ := by
  induction l with
  | nil => rfl
  | cons n rest ih =>
    unfold releaseLoop
    simp only [call_log_throw_false_eq, ih]
    simp

/-- Claim C1: the recorded claimed-set is meant to stay a subset of the
interfaces actually claimed at the native layer on the currently owned
channel.  The code violates this: `device_handle::reset` to a new raw handle
releases the claimed interfaces on the old channel but does not clear
`claimedInterfaces`, so afterwards the recorded set still holds interface 0
while the native layer has nothing claimed on the new channel.  Evaluated at
handle 1, claimed set `[0]`, native claimed pairs `[(1, 0)]`, reset to
handle 2 with all native calls succeeding. -/
theorem c1_claimed_invariant_broken_by_reset :
    claimedSubsetNative ⟨some 1, [0]⟩ [(1, 0)] = true ∧
    claimedSubsetNative (device_handle.reset ⟨some 1, [0]⟩ (some 2) (fun _ => 0)).1
      (applyNativeCalls [(1, 0)]
        (device_handle.reset ⟨some 1, [0]⟩ (some 2) (fun _ => 0)).2.calls) = false := by
  constructor <;> rfl

/-- Claim C2: destruction/reset is specified to release each claimed interface,
close the channel, then clear the claimed set, with nothing raised.  The code
performs the releases (in order) and the close and raises nothing, but never
clears `claimedInterfaces`: after `reset` on the handle `⟨some 5, [1]⟩` the
recorded claimed set is still `[1]`, not `[]`. -/
theorem c2_reset_does_not_clear_claimed_set :
    (device_handle.reset ⟨some 5, [1]⟩ (some 7) (fun _ => 0)).2.calls =
      [NativeCall.release_interface (some 5) 1, NativeCall.close 5] ∧
    (device_handle.reset ⟨some 5, [1]⟩ (some 7) (fun _ => 0)).2.raised = none ∧
    (device_handle.reset ⟨some 5, [1]⟩ (some 7) (fun _ => 0)).1.claimedInterfaces = [1] := by
  refine ⟨rfl, rfl, rfl⟩

/-- Claim C3: destroying a handle with claimed set `[1, 2, 3]` attempts the
native release of interfaces 1, 2 and 3 in that order before closing the
channel, and raises nothing even when the native release of interface 2
returns a failure code. -/
theorem c3_destruction_releases_in_order_and_never_raises
    (h : Nat) (rcs : Int → Int) (_hfail : rcs 2 < 0) :
    (device_handle.destruct ⟨some h, [1, 2, 3]⟩ rcs).calls =
      [NativeCall.release_interface (some h) 1,
       NativeCall.release_interface (some h) 2,
       NativeCall.release_interface (some h) 3,
       NativeCall.close h] ∧
    (device_handle.destruct ⟨some h, [1, 2, 3]⟩ rcs).raised = none := by
  unfold device_handle.destruct device_handle.reset
  rw [releaseLoop_eq]
  simp

/-- Witness for C3 at handle 9 with the release of interface 2 failing with -4. -/
theorem c3_destruction_witness :
    (fun n => if n = 2 then (-4 : Int) else 0) 2 < 0 ∧
    ((device_handle.destruct ⟨some 9, [1, 2, 3]⟩
        (fun n => if n = 2 then (-4 : Int) else 0)).calls =
      [NativeCall.release_interface (some 9) 1,
       NativeCall.release_interface (some 9) 2,
       NativeCall.release_interface (some 9) 3,
       NativeCall.close 9] ∧
     (device_handle.destruct ⟨some 9, [1, 2, 3]⟩
        (fun n => if n = 2 then (-4 : Int) else 0)).raised = none) :=
  ⟨by decide,
   c3_destruction_releases_in_order_and_never_raises 9
     (fun n => if n = 2 then (-4 : Int) else 0) (by decide)⟩

/-- Claim C4: `claim_interface(n)` is a no-op when `n` is recorded; otherwise it
invokes the native claim once, raises `usb_error` (set unchanged) on a negative
result, records `n` on success; two calls in a row invoke the native claim
exactly once and leave `n` in the claimed set exactly once. -/
theorem c4_claim_interface_exactly_once (dh : device_handle) (n rc rc2 : Int)
    (hmem : n ∉ dh.claimedInterfaces) (hok : 0 ≤ rc) :
    (∀ rcF : Int, rcF < 0 →
      (dh.claim_interface n rcF).1 = dh ∧
      (dh.claim_interface n rcF).2.raised = some (usb_error.ofCode rcF) ∧
      (dh.claim_interface n rcF).2.calls = [NativeCall.claim_interface dh.handle n]) ∧
    (dh.claim_interface n rc).1.claimedInterfaces = dh.claimedInterfaces ++ [n] ∧
    (dh.claim_interface n rc).2.calls = [NativeCall.claim_interface dh.handle n] ∧
    (dh.claim_interface n rc).2.raised = none ∧
    (dh.claim_interface n rc).1.claim_interface n rc2 =
      ((dh.claim_interface n rc).1, ⟨[], [], none⟩) ∧
    (dh.claim_interface n rc).1.claimedInterfaces.count n = 1 := by
  have hsucc : dh.claim_interface n rc =
      (⟨dh.handle, dh.claimedInterfaces ++ [n]⟩,
       ⟨[NativeCall.claim_interface dh.handle n], [], none⟩) := by
    unfold device_handle.claim_interface
    rw [if_neg hmem, call_log_throw_nonneg MvLogLevel.error true "claim_interface" 314 rc hok]
  refine ⟨?_, ?_, ?_, ?_, ?_, ?_⟩
  · intro rcF hF
    unfold device_handle.claim_interface
    rw [if_neg hmem, call_log_throw_neg_throw MvLogLevel.error "claim_interface" 314 rcF hF]
    exact ⟨rfl, rfl, rfl⟩
  · rw [hsucc]
  · rw [hsucc]
  · rw [hsucc]
  · rw [hsucc]
    unfold device_handle.claim_interface
    rw [if_pos (by simp)]
  · rw [hsucc]
    have h0 : dh.claimedInterfaces.count n = 0 := List.count_eq_zero.mpr hmem
    simp [List.count_append, h0]

/-- Witness for C4 on an empty handle, interface 0, native claim succeeding. -/
theorem c4_claim_interface_witness :
    ((0 : Int) ∉ ([] : List Int)) ∧ ((0 : Int) ≤ 0) ∧
    ((⟨some 1, []⟩ : device_handle).claim_interface 0 0).1.claimedInterfaces = [0] ∧
    ((⟨some 1, []⟩ : device_handle).claim_interface 0 0).1.claim_interface 0 0 =
      (((⟨some 1, []⟩ : device_handle).claim_interface 0 0).1, ⟨[], [], none⟩) ∧
    ((⟨some 1, []⟩ : device_handle).claim_interface 0 0).1.claimedInterfaces.count 0 = 1 ∧
    ((⟨some 1, []⟩ : device_handle).claim_interface 0 (-5)).2.raised =
      some (usb_error.ofCode (-5)) := by
  have h := c4_claim_interface_exactly_once ⟨some 1, []⟩ 0 0 0 (by simp) (by decide)
  exact ⟨by simp, by decide, by simpa using h.2.1, h.2.2.2.2.1, h.2.2.2.2.2,
         (h.1 (-5) (by decide)).2.1⟩

/-- Claim C5: Checked Invocation — a negative native result is logged (one
formatted message at the configured severity, for either policy) and, under the
throwing policy, raises `usb_error` carrying exactly that code with a non-empty
description; under the non-throwing policy the negative result is returned
unchanged; a non-negative result passes through with no log and no raise. -/
theorem c5_checked_invocation_contract (lvl : MvLogLevel) (f : String) (ln : Nat) (rc : Int) :
    (rc < 0 →
      (∀ t : Bool, (call_log_throw lvl t f ln rc).1 =
        [⟨lvl, f, ln, "dai::libusb failed " ++ f ++ "(): " ++ libusb_strerror rc⟩]) ∧
      (call_log_throw lvl true f ln rc).2 =
        Except.error (usb_error.mk rc (libusb_strerror rc)) ∧
      (usb_error.ofCode rc).code = rc ∧
      (usb_error.ofCode rc).what ≠ "" ∧
      (call_log_throw lvl false f ln rc).2 = Except.ok rc) ∧
    (0 ≤ rc → ∀ t : Bool, call_log_throw lvl t f ln rc = ([], Except.ok rc)) := by
  constructor
  · intro hneg
    refine ⟨?_, ?_, rfl, libusb_strerror_ne_empty rc, ?_⟩
    · intro t
      cases t
      · rw [call_log_throw_false_eq]
        simp [if_pos hneg]
      · rw [call_log_throw_neg_throw lvl f ln rc hneg]
    · rw [call_log_throw_neg_throw lvl f ln rc hneg]
    · rw [call_log_throw_false_eq]
  · intro hpos t
    exact call_log_throw_nonneg lvl t f ln rc hpos

/-- Witness for C5 at the spec's example: a native open returning -3 under the
throwing policy raises a Domain Error with carried code -3 and a non-empty
description. -/
theorem c5_checked_invocation_witness :
    (call_log_throw MvLogLevel.error true "libusb_open" 365 (-3)).2 =
      Except.error (usb_error.mk (-3) (libusb_strerror (-3))) ∧
    (usb_error.ofCode (-3)).code = -3 ∧
    (usb_error.ofCode (-3)).what ≠ "" :=
  ⟨((c5_checked_invocation_contract MvLogLevel.error "libusb_open" 365 (-3)).1 (by decide)).2.1,
   ((c5_checked_invocation_contract MvLogLevel.error "libusb_open" 365 (-3)).1 (by decide)).2.2.1,
   ((c5_checked_invocation_contract MvLogLevel.error "libusb_open" 365 (-3)).1
      (by decide)).2.2.2.1⟩

/-- Claim C6: `release()` clears the claimed-set bookkeeping without any native
call, returns the raw channel, and leaves the handle empty, so the subsequent
destructor issues no native release or close call. -/
theorem c6_release_leaves_destructor_noop (dh : device_handle) (rcs : Int → Int) :
    dh.release.1 = dh.handle ∧
    dh.release.2 = (⟨none, []⟩ : device_handle) ∧
    (device_handle.destruct dh.release.2 rcs).calls = [] ∧
    (device_handle.destruct dh.release.2 rcs).raised = none ∧
    (device_handle.destruct dh.release.2 rcs).logs = [] :=
  ⟨rfl, rfl, rfl, rfl, rfl⟩

/-- Claim C7: `usb_device::reset(newRaw)` increments the new identity's count
only when `newRaw` is non-empty, and does so before decrementing the old one;
resetting to the currently held raw handle never drops the count below its
starting value at any step. -/
theorem c7_reset_refs_before_unref (u : usb_device) (d : Nat) (c0 : Int)
    (hold : u.dev = some d) :
    (u.reset none).2 = [RefEvent.unref d] ∧
    (∀ q : Nat, (u.reset (some q)).2 = [RefEvent.ref q, RefEvent.unref d]) ∧
    (∀ c ∈ refCountTrace d c0 (u.reset (some d)).2, c0 ≤ c) ∧
    refCountAfter d c0 (u.reset (some d)).2 = c0 := by
  refine ⟨?_, ?_, ?_, ?_⟩
  · simp [usb_device.reset, libusb_ref_device, libusb_unref_device, hold]
  · intro q
    simp [usb_device.reset, libusb_ref_device, libusb_unref_device, hold]
  · intro c hc
    simp [usb_device.reset, libusb_ref_device, libusb_unref_device, hold,
          refCountTrace, List.scanl, refDelta1] at hc
    rcases hc with h | h | h <;> omega
  · simp [usb_device.reset, libusb_ref_device, libusb_unref_device, hold,
          refCountAfter, refDelta1]

/-- Witness for C7 on a device holding identity 3, reset to the same identity,
starting count 5. -/
theorem c7_reset_refs_witness :
    ((⟨some 3⟩ : usb_device).reset (some 3)).2 = [RefEvent.ref 3, RefEvent.unref 3] ∧
    (∀ c ∈ refCountTrace 3 5 ((⟨some 3⟩ : usb_device).reset (some 3)).2, (5 : Int) ≤ c) ∧
    refCountAfter 3 5 ((⟨some 3⟩ : usb_device).reset (some 3)).2 = 5 :=
  ⟨(c7_reset_refs_before_unref ⟨some 3⟩ 3 5 rfl).2.1 3,
   (c7_reset_refs_before_unref ⟨some 3⟩ 3 5 rfl).2.2.1,
   (c7_reset_refs_before_unref ⟨some 3⟩ 3 5 rfl).2.2.2⟩

/-- Claim C8: constructing a `usb_device` from raw identity `d` raises `d`'s
native reference count by exactly one, and construction followed by destruction
restores it exactly. -/
theorem c8_construct_destroy_roundtrip (d : Nat) (c0 : Int) :
    refCountAfter d c0 (usb_device.construct (some d)).2 = c0 + 1 ∧
    refCountAfter d c0 ((usb_device.construct (some d)).2 ++
      (usb_device.construct (some d)).1.destruct) = c0 := by
  constructor <;>
    simp [usb_device.construct, usb_device.destruct, libusb_ref_device,
          libusb_unref_device, refCountAfter, refDelta1]

/-- Claim C9: `device_list::at(i)` raises out-of-range exactly when `i >= size()`;
enumerating zero connected devices yields size 0, `empty()` true, and `at(0)`
raising out-of-range. -/
theorem c9_at_raises_iff_out_of_range (dl : device_list) (i : Nat) :
    (dl.size ≤ i → dl.at' i = Except.error "device_list::at") ∧
    (i < dl.size → dl.at' i = Except.ok (dl.devices.getD i 0)) ∧
    device_list.enumerate [] = Except.ok ⟨[]⟩ ∧
    device_list.size ⟨[]⟩ = 0 ∧
    device_list.empty ⟨[]⟩ = true ∧
    device_list.at' ⟨[]⟩ 0 = Except.error "device_list::at" := by
  refine ⟨?_, ?_, rfl, rfl, rfl, rfl⟩
  · intro hle
    unfold device_list.at'
    rw [if_pos hle]
  · intro hlt
    unfold device_list.at'
    rw [if_neg (by omega)]

/-- Witness for C9 on a one-element list: index 1 raises, index 0 succeeds. -/
theorem c9_at_witness :
    device_list.at' ⟨[4]⟩ 1 = Except.error "device_list::at" ∧
    device_list.at' ⟨[4]⟩ 0 = Except.ok 4 :=
  ⟨(c9_at_raises_iff_out_of_range ⟨[4]⟩ 1).1 (by decide),
   by
     have h := (c9_at_raises_iff_out_of_range ⟨[4]⟩ 0).2.1 (by decide)
     simpa using h⟩

/-- Claim C10: move-assignment closes the target's old channel (no native
release of its claimed interfaces), takes over the source's channel and
claimed set, and empties the source so its destruction issues no native call. -/
theorem c10_move_assign_closes_only (target source : device_handle) (rcs : Int → Int) :
    (device_handle.moveAssign target source).1 =
      (⟨source.handle, source.claimedInterfaces⟩ : device_handle) ∧
    (device_handle.moveAssign target source).2.1 = (⟨none, []⟩ : device_handle) ∧
    (target.handle = none → (device_handle.moveAssign target source).2.2 = []) ∧
    (∀ h : Nat, target.handle = some h →
      (device_handle.moveAssign target source).2.2 = [NativeCall.close h]) ∧
    (∀ c ∈ (device_handle.moveAssign target source).2.2,
      ∀ hh : Option Nat, ∀ nn : Int, c ≠ NativeCall.release_interface hh nn) ∧
    (device_handle.destruct (device_handle.moveAssign target source).2.1 rcs).calls = [] := by
  refine ⟨rfl, rfl, ?_, ?_, ?_, rfl⟩
  · intro hnone
    unfold device_handle.moveAssign
    rw [hnone]
  · intro h hsome
    unfold device_handle.moveAssign
    rw [hsome]
  · intro c hc hh nn
    unfold device_handle.moveAssign at hc
    rcases htarget : target.handle with _ | h
    · rw [htarget] at hc
      simp at hc
    · rw [htarget] at hc
      simp at hc
      subst hc
      intro heq
      exact NativeCall.noConfusion heq

/-- Witness for C10 on target `⟨some 2, [0]⟩` and source `⟨some 3, [1]⟩`. -/
theorem c10_move_assign_witness :
    (device_handle.moveAssign ⟨some 2, [0]⟩ ⟨some 3, [1]⟩).2.2 = [NativeCall.close 2] ∧
    (device_handle.destruct (device_handle.moveAssign ⟨some 2, [0]⟩ ⟨some 3, [1]⟩).2.1
      (fun _ => 0)).calls = [] :=
  ⟨(c10_move_assign_closes_only ⟨some 2, [0]⟩ ⟨some 3, [1]⟩ (fun _ => 0)).2.2.2.1 2 rfl,
   (c10_move_assign_closes_only ⟨some 2, [0]⟩ ⟨some 3, [1]⟩ (fun _ => 0)).2.2.2.2.2⟩

end libusb

end dai
